import Mathlib

/-!
Shallow embedding of the Task-Manager-in-Remix-js repository.

The repository has three relevant source pieces:
* a database connection manager (`connectToDatabase` over a process-wide
  cache `{ conn, promise }`, plus the `MONGODB_URI` startup check);
* the Mongoose `TaskSchema` / `Task` model (title required+trimmed,
  description trimmed with an empty-string default, createdAt now);
* the route module with `loader` (read path: find all, sort by createdAt
  descending, serialize `_id` to string and `createdAt` to ISO) and
  `action` (write path: validate title, create task, redirect; errors to
  JSON responses).

Asynchrony is embedded by making the implicit state explicit: the
connection cache is a state value threaded through the synchronous phase
of `connectToDatabase`, and the promise machinery is represented by
attempt identifiers plus an explicit settlement function for the
`.then`/`.catch` handlers.  The document store is a list of task
documents; environment effects (connection success, save success, query
success, the current clock, the store-assigned ObjectId) are explicit
parameters.
-/

namespace TaskManager

/-! ## JavaScript string trimming

`String.prototype.trim` removes whitespace from both ends.  We model it
over the character list of a Lean string, using `Char.isWhitespace` as
the whitespace class. -/

/-- Model of JavaScript whitespace for `trim`. -/
def isJsWs (c : Char) : Bool := c.isWhitespace

/-- Model of JavaScript `s.trim()`: drop whitespace from both ends. -/
def jsTrim (s : String) : String :=
  ⟨(s.data.dropWhile isJsWs).rdropWhile isJsWs⟩

/-! ## Connection manager (`db.server.js`)

`connectToDatabase` inspects and updates the process-wide cache
`cachedDb = { conn, promise }`.  Connections and in-flight attempts are
identified by natural numbers.  The synchronous phase of the function
either returns the cached connection, or the identifier of the promise
the caller will await (cached or freshly started). -/

/-- The process-wide cache `global.mongoose = { conn, promise }`. -/
structure CacheState where
  conn : Option Nat
  promise : Option Nat
deriving DecidableEq, Repr

/-- The cache at process start: `{ conn: null, promise: null }`. -/
def CacheState.init : CacheState := ⟨none, none⟩

/-- What the synchronous phase of `connectToDatabase` hands the caller:
either an already-established connection (returned immediately, no
await), or the identifier of the attempt promise the caller awaits. -/
inductive AcquireResult where
  | conn (c : Nat)
  | await (a : Nat)
deriving DecidableEq, Repr

/-- Synchronous phase of `connectToDatabase` (db.server.js lines 33-66):
if `cachedDb.conn` is set, return it; else if `cachedDb.promise` is set,
return that promise; else start one new attempt (identified by `fresh`),
cache its promise, and return it.  The third component records whether a
new underlying `mongoose.connect` call was started. -/
def connectToDatabase (s : CacheState) (fresh : Nat) :
    AcquireResult × CacheState × Bool :=
  match s.conn with
  | some c => (.conn c, s, false)
  | none =>
    match s.promise with
    | some a => (.await a, s, false)
    | none => (.await fresh, { s with promise := some fresh }, true)

/-- The outcome of an underlying connection attempt. -/
inductive Outcome where
  | success (c : Nat)
  | failure (e : String)
deriving DecidableEq, Repr

/-- The `.then`/`.catch` handlers attached to the attempt promise
(db.server.js lines 51-61): on success store the connection in the
cache; on failure clear `cachedDb.promise` and re-throw.  Returns the
updated cache and the value every awaiting caller receives. -/
def settleAttempt (s : CacheState) (o : Outcome) :
    CacheState × Except String Nat :=
  match o with
  | .success c => ({ s with conn := some c }, .ok c)
  | .failure e => ({ s with promise := none }, .error e)

/-- What a caller awaiting the attempt promise observes, as a function of
the attempt's outcome alone (the promise resolves once, identically for
every awaiter). -/
def awaitOutcome (o : Outcome) : Except String Nat :=
  match o with
  | .success c => .ok c
  | .failure e => .error e

/-- Module initialization of db.server.js (lines 8-15): read
`process.env.MONGODB_URI`; if it is `undefined` (or empty, since `!uri`
tests JS falsiness), throw immediately. -/
def moduleInit (uri : Option String) : Except String Unit :=
  match uri with
  | none =>
      .error "Please define the MONGODB_URI environment variable inside .env"
  | some u =>
      if u.isEmpty then
        .error "Please define the MONGODB_URI environment variable inside .env"
      else
        .ok ()

/-! ## Task model (`task.server.js`)

A stored document: `_id` is an ObjectId assigned by the store (modelled
as its hex string), `title` and `description` are strings passed through
the schema's `trim: true` setter, `createdAt` is a timestamp in
milliseconds since the epoch (schema default `Date.now`). -/

/-- A MongoDB ObjectId, identified by its 24-hex-digit string; its
JavaScript `toString()` returns that string. -/
structure ObjectId where
  hex : String
deriving DecidableEq, Repr

/-- JavaScript `ObjectId.prototype.toString`. -/
def ObjectId.str (o : ObjectId) : String := o.hex

/-- A stored Task document. -/
structure Task where
  id : ObjectId
  title : String
  description : String
  createdAt : Nat
deriving DecidableEq, Repr

/-- Evaluation of `new Task(...)` followed by the schema setters
and defaults (task.server.js lines 5-31): `trim: true` on `title` and
`description`, the empty-string default for a missing description, the
`Date.now` default for `createdAt`; the store assigns `_id` on save. -/
def mkTaskDoc (title : String) (description : Option String)
    (now : Nat) (oid : ObjectId) : Task :=
  { id := oid
    title := jsTrim title
    description := jsTrim (description.getD "")
    createdAt := now }

/-! ## Write path: `action` (route module lines 110-135)

`formData.get` returns a string, a `File`, or `null`; the three cases
are the `FormValue` constructors.  The try/catch around the body maps a
connection failure, a thrown `TypeError` (calling `.trim()` on a
`File`), or a failed `save()` to the generic 500 response. -/

/-- A value returned by `formData.get(name)`. -/
inductive FormValue where
  | str (s : String)
  | file
  | null
deriving DecidableEq, Repr

/-- The validation test on line 120: title falsy, or not of type
string, or trimming to length zero.  `null` is falsy; a `File` is not of
type string; a string fails when empty (falsy) or whitespace-only. -/
def titleInvalid : FormValue → Bool
  | .null => true
  | .file => true
  | .str s => s.isEmpty || (jsTrim s).length == 0

/-- Evaluation of the conditional `description ? description.trim()
: ...` on line 125: `null` and the empty string are falsy and give the
empty string; a non-empty string is trimmed; a `File` has no `.trim`
method, so the expression throws a `TypeError` (caught by the
surrounding try/catch). -/
def evalDescription : FormValue → Except String String
  | .null => .ok ""
  | .str s => if s.isEmpty then .ok "" else .ok (jsTrim s)
  | .file => .error "TypeError: description.trim is not a function"

/-- A response produced by the `action` function. -/
inductive ActionResponse where
  /-- Response `json` with body `errors.title = msg` and the given status. -/
  | titleError (msg : String) (status : Nat)
  /-- Response `json` with body `message = msg` and the given status. -/
  | failMessage (msg : String) (status : Nat)
  /-- Response `redirect(location)`. -/
  | redirect (location : String)
deriving DecidableEq, Repr

/-- The write path (route module lines 110-135), over a store modelled
as a list of documents.  Environment parameters: `connOk` — whether
`connectToDatabase()` succeeds; `saveOk` — whether `newTask.save()`
succeeds; `now` — the current clock; `oid` — the ObjectId the store
assigns to a new document.  Any exception reaches the catch block and
yields the generic 500 message; validation failure returns the 400
errors object before the document is constructed; success persists the
document and redirects to `/`. -/
def action (store : List Task) (title description : FormValue)
    (now : Nat) (oid : ObjectId) (connOk saveOk : Bool) :
    ActionResponse × List Task :=
  if !connOk then
    (.failMessage "Failed to add task. Please try again." 500, store)
  else if titleInvalid title then
    (.titleError "Title is required." 400, store)
  else
    match evalDescription description with
    | .error _ =>
        (.failMessage "Failed to add task. Please try again." 500, store)
    | .ok desc =>
        let titleArg := match title with
          | .str s => jsTrim s
          | _ => ""
        let newTask := mkTaskDoc titleArg (some desc) now oid
        if saveOk then
          (.redirect "/", store ++ [newTask])
        else
          (.failMessage "Failed to add task. Please try again." 500, store)

/-! ## Read path: `loader` (route module lines 69-91)

`Task.find({}).sort({ createdAt: -1 }).lean()` retrieves every document
sorted by `createdAt` descending; the loader then maps `_id` to its
string form and `createdAt` to `Date.prototype.toISOString()`.  The ISO
formatting uses the standard civil-from-days calendar conversion. -/

/-- Left-pad the decimal form of `n` with zeros to `w` digits. -/
def padZeros (w n : Nat) : String :=
  let d := toString n
  String.mk (List.replicate (w - d.length) '0') ++ d

/-- Model of `Date.prototype.toISOString()` for a timestamp of `ms`
milliseconds since the Unix epoch: the UTC form
`YYYY-MM-DDTHH:MM:SS.sssZ`, via the civil-from-days conversion. -/
def toISOString (ms : Nat) : String :=
  let s := ms / 1000
  let msec := ms % 1000
  let days := s / 86400
  let secOfDay := s % 86400
  let hh := secOfDay / 3600
  let mm := secOfDay % 3600 / 60
  let ss := secOfDay % 60
  let z := days + 719468
  let era := z / 146097
  let doe := z % 146097
  let yoe := (doe - doe / 1460 + doe / 36524 - doe / 146096) / 365
  let doy := doe - (365 * yoe + yoe / 4 - yoe / 100)
  let mp := (5 * doy + 2) / 153
  let d := doy - (153 * mp + 2) / 5 + 1
  let m := if mp < 10 then mp + 3 else mp - 9
  let y := yoe + era * 400 + (if m ≤ 2 then 1 else 0)
  padZeros 4 y ++ "-" ++ padZeros 2 m ++ "-" ++ padZeros 2 d ++ "T" ++
    padZeros 2 hh ++ ":" ++ padZeros 2 mm ++ ":" ++ padZeros 2 ss ++
    "." ++ padZeros 3 msec ++ "Z"

/-- A task record as returned by the loader: `_id` converted to a plain
string, `createdAt` converted to an ISO string (lines 78-82). -/
structure SerializedTask where
  id : String
  title : String
  description : String
  createdAt : String
deriving DecidableEq, Repr

/-- The per-document serialization on lines 78-82. -/
def serializeTask (t : Task) : SerializedTask :=
  { id := t.id.str
    title := t.title
    description := t.description
    createdAt := toISOString t.createdAt }

/-- Model of `.sort` with `createdAt: -1`: the store returns the documents ordered
by `createdAt` descending. -/
def sortNewestFirst (ts : List Task) : List Task :=
  ts.mergeSort (fun a b => b.createdAt ≤ a.createdAt)

/-- The read path (route module lines 69-91).  Environment parameters:
`connOk` — whether `connectToDatabase()` succeeds; `queryOk` — whether
the `find` query succeeds.  On success every stored document is
returned, sorted newest-first and serialized; any failure reaches the
catch block, which throws `json({ message: "Failed to load tasks." },
{ status: 500 })`. -/
def loader (store : List Task) (connOk queryOk : Bool) :
    Except (String × Nat) (List SerializedTask) :=
  if connOk && queryOk then
    .ok ((sortNewestFirst store).map serializeTask)
  else
    .error ("Failed to load tasks.", 500)

/-! ## Helper lemmas about `jsTrim` -/

/-- The leading-whitespace drop leaves a string that starts with a
non-whitespace character untouched; applied to the two-sided trim. -/
theorem dropWhile_jsTrimmed (l : List Char) :
    ((l.dropWhile isJsWs).rdropWhile isJsWs).dropWhile isJsWs
      = (l.dropWhile isJsWs).rdropWhile isJsWs := by
  rw [List.dropWhile_eq_self_iff]
  intro hl
  have hpre := List.rdropWhile_prefix isJsWs (l.dropWhile isJsWs)
  have hA : 0 < (l.dropWhile isJsWs).length :=
    lt_of_lt_of_le hl hpre.length_le
  have hhead := List.dropWhile_get_zero_not isJsWs l hA
  have hget := hpre.getElem hl
  simp only [List.get_eq_getElem] at hhead ⊢
  rwa [← hget] at hhead

/-- JavaScript `trim` is idempotent. -/
theorem jsTrim_idempotent (s : String) : jsTrim (jsTrim s) = jsTrim s := by
  show (⟨_⟩ : String) = ⟨_⟩
  unfold jsTrim
  rw [dropWhile_jsTrimmed, List.rdropWhile_idempotent]

/-- Trimming the empty string gives the empty string. -/
theorem jsTrim_empty : jsTrim "" = "" := rfl

/-- A string with empty trim is trimmed to length zero, and conversely. -/
theorem jsTrim_eq_empty_iff_length (s : String) :
    jsTrim s = "" ↔ (jsTrim s).length = 0 := by
  constructor
  · intro h
    rw [h]
    rfl
  · intro h
    have : (jsTrim s).data = [] := List.length_eq_zero.mp h
    cases hs : jsTrim s with
    | mk data => rw [hs] at this; simpa [this] using congrArg String.mk this.symm ▸ rfl

/-! ## Helper lemmas about the write path -/

/-- Two ObjectIds with the same hex string are the same ObjectId. -/
theorem ObjectId.hex_inj {a b : ObjectId} (h : a.hex = b.hex) : a = b := by
  cases a; cases b; simpa using h

/-- A title whose trim is non-empty passes the validation test. -/
theorem titleInvalid_eq_false_of_trim {t : String} (h : jsTrim t ≠ "") :
    titleInvalid (.str t) = false := by
  simp only [titleInvalid, Bool.or_eq_false_iff]
  constructor
  · rw [Bool.eq_false_iff]
    intro he
    exact h (by rw [(String.isEmpty_iff t).mp he]; rfl)
  · rw [beq_eq_false_iff_ne]
    intro hlen
    exact h ((jsTrim_eq_empty_iff_length t).mpr hlen)

/-- The value of the description conditional on line 125 is already
trimmed: trimming it again changes nothing. -/
theorem evalDescription_trimmed {d : FormValue} {desc : String}
    (h : evalDescription d = .ok desc) : jsTrim desc = desc := by
  cases d with
  | null =>
      simp only [evalDescription, Except.ok.injEq] at h
      rw [← h]; rfl
  | file => simp [evalDescription] at h
  | str s =>
      simp only [evalDescription] at h
      split at h
      · simp only [Except.ok.injEq] at h
        rw [← h]; rfl
      · simp only [Except.ok.injEq] at h
        rw [← h]
        exact jsTrim_idempotent s

/-- On valid input the action appends exactly the document built from
the trimmed title and the evaluated description. -/
theorem action_valid_eq {store : List Task} {t : String}
    {description : FormValue} {desc : String} {now : Nat} {oid : ObjectId}
    (htitle : titleInvalid (.str t) = false)
    (hdesc : evalDescription description = .ok desc) :
    action store (.str t) description now oid true true
      = (.redirect "/", store ++ [⟨oid, jsTrim t, desc, now⟩]) := by
  simp only [action, Bool.not_true, Bool.false_eq_true, if_false, htitle,
    hdesc, if_true]
  simp [mkTaskDoc, jsTrim_idempotent, evalDescription_trimmed hdesc]

/-! ## Claim theorems: connection manager -/

/-- C1: whenever a connection attempt is in flight (a pending attempt is
cached) and no connected handle exists yet, every call to
`connectToDatabase` returns that same pending attempt, starts no second
underlying connection attempt, and leaves the cache unchanged; and every
caller awaiting that attempt receives the one value determined by the
attempt's outcome (the same resolved handle, or the same failure). -/
theorem acquire_inflight_dedup (s : CacheState) (a fresh : Nat)
    (hconn : s.conn = none) (hprom : s.promise = some a) :
    connectToDatabase s fresh = (.await a, s, false)
      ∧ ∀ o : Outcome, (settleAttempt s o).2 = awaitOutcome o := by
  constructor
  · simp [connectToDatabase, hconn, hprom]
  · intro o
    cases o <;> simp [settleAttempt, awaitOutcome]

/-- Witness for C1 at the concrete cache `{ conn := none, promise := 7 }`. -/
theorem acquire_inflight_dedup_witness :
    connectToDatabase ⟨none, some 7⟩ 9 = (.await 7, ⟨none, some 7⟩, false)
      ∧ ∀ o : Outcome, (settleAttempt ⟨none, some 7⟩ o).2 = awaitOutcome o :=
  acquire_inflight_dedup ⟨none, some 7⟩ 7 9 rfl rfl

/-- C2: a failed connection attempt clears the cached in-flight promise,
leaves the connection handle unset, and propagates the failure to every
awaiting caller; the next `connectToDatabase` call then starts a fresh
underlying attempt rather than returning the old failure. -/
theorem failure_clears_promise (s : CacheState) (e : String) (fresh : Nat)
    (hconn : s.conn = none) :
    (settleAttempt s (.failure e)).1 = ⟨none, none⟩
      ∧ (settleAttempt s (.failure e)).2 = .error e
      ∧ awaitOutcome (.failure e) = .error e
      ∧ connectToDatabase (settleAttempt s (.failure e)).1 fresh
          = (.await fresh, ⟨none, some fresh⟩, true) := by
  refine ⟨?_, rfl, rfl, ?_⟩
  · simp [settleAttempt, hconn]
  · simp [settleAttempt, connectToDatabase, hconn]

/-- Witness for C2 at the concrete cache `{ conn := none, promise := 3 }`
and failure message `"refused"`. -/
theorem failure_clears_promise_witness :
    (settleAttempt ⟨none, some 3⟩ (.failure "refused")).1 = ⟨none, none⟩
      ∧ (settleAttempt ⟨none, some 3⟩ (.failure "refused")).2
          = .error "refused"
      ∧ awaitOutcome (.failure "refused") = .error "refused"
      ∧ connectToDatabase (settleAttempt ⟨none, some 3⟩
            (.failure "refused")).1 4
          = (.await 4, ⟨none, some 4⟩, true) :=
  failure_clears_promise ⟨none, some 3⟩ "refused" 4 rfl

/-- C3: when a live connection handle is cached, `connectToDatabase`
returns that handle immediately, starts no connection attempt (no I/O),
and leaves the cache unchanged — so repeated calls after the first
success all return the identical handle. -/
theorem acquire_connected_idempotent (s : CacheState) (c fresh : Nat)
    (hconn : s.conn = some c) :
    connectToDatabase s fresh = (.conn c, s, false) := by
  simp [connectToDatabase, hconn]

/-- Witness for C3 at the concrete cache `{ conn := 5, promise := 2 }`. -/
theorem acquire_connected_idempotent_witness :
    connectToDatabase ⟨some 5, some 2⟩ 9 = (.conn 5, ⟨some 5, some 2⟩, false) :=
  acquire_connected_idempotent ⟨some 5, some 2⟩ 5 9 rfl

/-- C9: if `MONGODB_URI` is absent from the environment, module
initialization of db.server.js throws immediately at startup, before any
connection attempt. -/
theorem missing_uri_fatal :
    moduleInit none
      = .error "Please define the MONGODB_URI environment variable inside .env" :=
  rfl

/-! ## Claim theorems: write path -/

/-- C4: when the submitted title is missing (`null`), not textual (a
`File`), or empty after trimming, the action returns the validation
response `{ errors: { title: "Title is required." } }` with status 400,
before constructing or saving any document, and the stored task list is
unchanged — whatever the description and whatever a save would have
done. -/
theorem invalid_title_rejected (store : List Task)
    (title description : FormValue) (now : Nat) (oid : ObjectId)
    (saveOk : Bool)
    (hinvalid : title = .null ∨ title = .file
      ∨ ∃ s, title = .str s ∧ jsTrim s = "") :
    action store title description now oid true saveOk
      = (.titleError "Title is required." 400, store) := by
  have htitle : titleInvalid title = true := by
    rcases hinvalid with h | h | ⟨s, hs, htrim⟩
    · rw [h]; rfl
    · rw [h]; rfl
    · rw [hs]
      simp [titleInvalid, htrim]
  simp [action, htitle]

/-- Witness for C4: a whitespace-only title is rejected with the 400
validation response and the store is untouched. -/
theorem invalid_title_rejected_witness :
    action [] (.str "   ") (.str "something") 17 ⟨"a1"⟩ true true
      = (.titleError "Title is required." 400, []) :=
  invalid_title_rejected [] (.str "   ") (.str "something") 17 ⟨"a1"⟩ true
    (Or.inr (Or.inr ⟨"   ", rfl, by decide⟩))

/-- C8: with valid input (title non-empty after trimming, description
evaluable), a failed save yields
`{ message: "Failed to add task. Please try again." }` with status 500
and leaves the store unchanged, while a successful save appends the new
document and redirects to `/`, the read path. -/
theorem persistence_outcome (store : List Task) (t : String)
    (description : FormValue) (desc : String) (now : Nat) (oid : ObjectId)
    (htitle : titleInvalid (.str t) = false)
    (hdesc : evalDescription description = .ok desc) :
    action store (.str t) description now oid true false
        = (.failMessage "Failed to add task. Please try again." 500, store)
      ∧ action store (.str t) description now oid true true
        = (.redirect "/", store ++ [⟨oid, jsTrim t, desc, now⟩]) := by
  constructor
  · simp [action, htitle, hdesc]
  · exact action_valid_eq htitle hdesc

/-- Witness for C8 at the concrete submission `title = "Buy milk"`,
absent description, over the empty store. -/
theorem persistence_outcome_witness :
    action [] (.str "Buy milk") .null 5 ⟨"b2"⟩ true false
        = (.failMessage "Failed to add task. Please try again." 500, [])
      ∧ action [] (.str "Buy milk") .null 5 ⟨"b2"⟩ true true
        = (.redirect "/", [] ++ [⟨⟨"b2"⟩, jsTrim "Buy milk", "", 5⟩]) :=
  persistence_outcome [] "Buy milk" .null "" 5 ⟨"b2"⟩ (by decide) rfl

/-- C10: when the title is valid but the description form value is a
`File`, the action does not report a validation error: evaluating
`description.trim()` throws, the catch block answers
`{ message: "Failed to add task. Please try again." }` with status 500,
and no document is persisted. -/
theorem file_description_is_server_error (store : List Task) (t : String)
    (now : Nat) (oid : ObjectId) (saveOk : Bool)
    (htitle : titleInvalid (.str t) = false) :
    action store (.str t) .file now oid true saveOk
      = (.failMessage "Failed to add task. Please try again." 500, store) := by
  simp [action, htitle, evalDescription]

/-- Witness for C10 at the concrete title `"Report"` with a `File`
description over the empty store. -/
theorem file_description_is_server_error_witness :
    action [] (.str "Report") .file 3 ⟨"c3"⟩ true true
      = (.failMessage "Failed to add task. Please try again." 500, []) :=
  file_description_is_server_error [] "Report" 3 ⟨"c3"⟩ true (by decide)

/-! ## Claim theorems: read path -/

/-- C6: the read path returns all stored Task records — the returned
sequence is a permutation of the store, nothing filtered, no limit —
ordered by `createdAt` descending: for any record A before record B,
`A.createdAt ≥ B.createdAt`. -/
theorem list_all_sorted (store : List Task) :
    (sortNewestFirst store).Perm store
      ∧ (sortNewestFirst store).Pairwise
          (fun a b => b.createdAt ≤ a.createdAt)
      ∧ loader store true true
          = .ok ((sortNewestFirst store).map serializeTask) := by
  refine ⟨List.mergeSort_perm store _, ?_, rfl⟩
  have h := @List.sorted_mergeSort Task
    (fun a b : Task => decide (b.createdAt ≤ a.createdAt))
    (fun a b c hab hbc => by
      simp only [decide_eq_true_eq] at hab hbc ⊢
      omega)
    (fun a b => by
      simp only [Bool.or_eq_true, decide_eq_true_eq]
      omega)
    store
  exact h.imp (by simp)

/-- C7: on success the read path returns the serialized task list —
every returned record comes from a stored task, with `id` normalized to
the ObjectId's plain string and `createdAt` normalized to the ISO
timestamp string; on any failure it signals
`{ message: "Failed to load tasks." }` with status 500 and returns no
partial list. -/
theorem read_path_shape (store : List Task) (connOk queryOk : Bool) :
    (connOk = true → queryOk = true →
        ∃ L, loader store connOk queryOk = .ok L
          ∧ ∀ r ∈ L, ∃ t ∈ store, r.id = t.id.hex ∧ r.title = t.title
              ∧ r.description = t.description
              ∧ r.createdAt = toISOString t.createdAt)
      ∧ ((connOk = true ∧ queryOk = true → False) →
          loader store connOk queryOk
            = .error ("Failed to load tasks.", 500)) := by
  constructor
  · intro hc hq
    subst hc; subst hq
    refine ⟨(sortNewestFirst store).map serializeTask, rfl, ?_⟩
    intro r hr
    obtain ⟨x, hx, hrx⟩ := List.mem_map.mp hr
    have hxs : x ∈ store :=
      (List.mergeSort_perm store _).mem_iff.mp hx
    exact ⟨x, hxs, by rw [← hrx]; exact ⟨rfl, rfl, rfl, rfl⟩⟩
  · intro hne
    cases connOk with
    | true =>
        cases queryOk with
        | true => exact absurd ⟨rfl, rfl⟩ hne
        | false => rfl
    | false => rfl

/-- Witness for C7: a one-task store is returned serialized on success,
and a failed connection produces the 500 error response. -/
theorem read_path_shape_witness :
    (∃ L, loader [Task.mk ⟨"d4"⟩ "A" "" 1000] true true = .ok L
        ∧ ∀ r ∈ L, ∃ t ∈ [Task.mk ⟨"d4"⟩ "A" "" 1000], r.id = t.id.hex
            ∧ r.title = t.title ∧ r.description = t.description
            ∧ r.createdAt = toISOString t.createdAt)
      ∧ loader [] false true = .error ("Failed to load tasks.", 500) :=
  ⟨(read_path_shape [Task.mk ⟨"d4"⟩ "A" "" 1000] true true).1 rfl rfl,
   (read_path_shape [] false true).2 (fun h => by simp at h)⟩

/-! ## Claim theorem: create followed by list -/

/-- C5: for any title with non-empty trim and any evaluable description
(present and trimmed to `desc`, or absent with `desc = ""`), creating a
task (with a store-assigned ObjectId not already in use) and then
listing yields exactly one new record carrying that ObjectId, whose
title is the trimmed title and whose description is `desc`. -/
theorem create_then_list (store : List Task) (t : String)
    (description : FormValue) (desc : String) (now : Nat) (oid : ObjectId)
    (htitle : jsTrim t ≠ "")
    (hdesc : evalDescription description = .ok desc)
    (hfresh : ∀ x ∈ store, x.id ≠ oid) :
    (action store (.str t) description now oid true true).1 = .redirect "/"
      ∧ ∃ L, loader (action store (.str t) description now oid true true).2
            true true = .ok L
        ∧ L.countP (fun r => r.id == oid.hex) = 1
        ∧ ∀ r ∈ L, r.id = oid.hex →
            r.title = jsTrim t ∧ r.description = desc := by
  have hval := titleInvalid_eq_false_of_trim htitle
  have hact := @action_valid_eq store t description desc now oid
    hval hdesc
  rw [hact]
  refine ⟨rfl,
    (sortNewestFirst (store ++ [Task.mk oid (jsTrim t) desc now])).map
      serializeTask, rfl, ?_, ?_⟩
  · rw [List.countP_map, sortNewestFirst,
      (List.mergeSort_perm (store ++ [Task.mk oid (jsTrim t) desc now])
        _).countP_eq,
      List.countP_append]
    have h0 : store.countP
        ((fun r => r.id == oid.hex) ∘ serializeTask) = 0 := by
      rw [List.countP_eq_zero]
      intro x hx
      simp only [Function.comp_apply, serializeTask, ObjectId.str,
        beq_iff_eq]
      intro hhex
      exact hfresh x hx (ObjectId.hex_inj hhex)
    rw [h0]
    simp [serializeTask, ObjectId.str]
  · intro r hr hid
    obtain ⟨x, hx, hrx⟩ := List.mem_map.mp hr
    have hxs : x ∈ store ++ [Task.mk oid (jsTrim t) desc now] :=
      (List.mergeSort_perm _ _).mem_iff.mp hx
    rcases List.mem_append.mp hxs with hmem | hmem
    · exfalso
      apply hfresh x hmem
      apply ObjectId.hex_inj
      rw [← hid, ← hrx]
      rfl
    · rw [List.mem_singleton.mp hmem] at hrx
      rw [← hrx]
      exact ⟨rfl, rfl⟩

/-- Witness for C5: submitting title `"  Buy milk "` and description
`"  milk run "` over the empty store stores one record titled
`"Buy milk"` described `"milk run"`. -/
theorem create_then_list_witness :
    (action [] (.str "  Buy milk ") (.str "  milk run ") 42 ⟨"e5"⟩
        true true).1 = .redirect "/"
      ∧ ∃ L, loader (action [] (.str "  Buy milk ") (.str "  milk run ")
            42 ⟨"e5"⟩ true true).2 true true = .ok L
        ∧ L.countP (fun r => r.id == ObjectId.hex ⟨"e5"⟩) = 1
        ∧ ∀ r ∈ L, r.id = ObjectId.hex ⟨"e5"⟩ →
            r.title = jsTrim "  Buy milk " ∧ r.description = "milk run" :=
  create_then_list [] "  Buy milk " (.str "  milk run ") "milk run" 42
    ⟨"e5"⟩ (by decide) rfl
    (fun x hx => absurd hx (List.not_mem_nil x))

end TaskManager
